import Mathlib

/-!
# Verification of the hyponcloud session manager

Shallow embedding of `src/hyponcloud/client.py` (class `HyponCloud`), its
exception hierarchy (`src/hyponcloud/exceptions.py`) and its data models
(`src/hyponcloud/models.py`).

Modelling conventions:

* JSON values are the inductive `JVal`; Python `dict`s are association lists
  with unique keys (all payloads in scope are well formed).
* The HTTP transport is an oracle `Request → Nat → HttpResult`, the `Nat`
  being the index of the network call (0-based, over the whole run), so a
  scripted mock transport can answer per call.  A transport answer is either
  a received response (status code plus already-parsed JSON body — a JSON
  decoding failure inside `response.json()` raises `aiohttp.ClientError`
  in the source and is modelled as `HttpResult.clientError`) or a raised
  `aiohttp.ClientError`.
* The mutable client state (`__token`, `__token_expires_at`), the wall clock
  (`time()`), the list of network calls issued and the list of
  `asyncio.sleep` backoffs performed are threaded explicitly in `CState`.
  `asyncio.sleep d` advances the clock by `d`.
* Python exceptions are `PyExc`; `Except PyExc` is the result of every
  operation.  `Err`-style wrapping strings follow the source's f-strings,
  with `str(KeyError(k)) = "'k'"`.
* Python floats in the data models are modelled as `Int` (the claims only
  concern the zero default values), and timestamps as `Int`.
* Sessions (`aiohttp.ClientSession` ownership) carry no claim-relevant
  behaviour and are not modelled.  Indexing a non-dict (a `TypeError` in
  Python) and non-string token payloads are outside the scope of every
  claim; where totality forces a choice the model raises
  `PyExc.typeError`, mirroring that Python would raise an exception not
  caught by the source's `except KeyError` / `except aiohttp.ClientError`
  clauses.
-/

/-- A JSON value, as produced by `response.json()`. -/
inductive JVal where
  | str (s : String)
  | num (n : Int)
  | bool (b : Bool)
  | arr (items : List JVal)
  | obj (fields : List (String × JVal))

/-- Association-list lookup, i.e. Python `d[k]` on a well-formed dict. -/
def lookupField : List (String × JVal) → String → Option JVal
  | [], _ => none
  | (k', v) :: rest, k => if k' = k then some v else lookupField rest k

/-- `j[k]` for a dict `j`: `none` when the key is missing. -/
def pyLookup (j : JVal) (k : String) : Option JVal :=
  match j with
  | .obj fields => lookupField fields k
  | _ => none

/-- Python exceptions reachable in the client. -/
inductive PyExc where
  | authenticationError (msg : String)
  | rateLimitError (msg : String)
  | requestError (msg : String)
  | keyError (key : String)
  | clientError (msg : String)
  | typeError (msg : String)
deriving DecidableEq, Repr

/-- `str(e)` for a caught exception, as interpolated by the source's
f-strings (`str(KeyError('data')) = "'data'"`). -/
def PyExc.toMessage : PyExc → String
  | .authenticationError m => m
  | .rateLimitError m => m
  | .requestError m => m
  | .keyError k => "'" ++ k ++ "'"
  | .clientError m => m
  | .typeError m => m

/-- Python subscript `j[k]`: `KeyError` when the key is absent from a dict,
`TypeError` when the value is not a dict. -/
def pySubscript (j : JVal) (k : String) : Except PyExc JVal :=
  match j with
  | .obj fields =>
    match lookupField fields k with
    | some v => Except.ok v
    | none => Except.error (.keyError k)
  | _ => Except.error (.typeError "value is not subscriptable by string")

/-- Python `str()` of a JSON value (only `.str` payloads occur in scope). -/
def pyStr : JVal → String
  | .str s => s
  | .num n => toString n
  | .bool b => if b then "True" else "False"
  | .arr _ => "<list>"
  | .obj _ => "<dict>"

/-- One HTTP request as issued by the client. -/
structure Request where
  method : String
  url : String
  bearer : Option String := none
  body : Option JVal := none

/-- Outcome of one network call. -/
inductive HttpResult where
  | resp (status : Nat) (body : JVal)
  | clientError (msg : String)

/-- Mutable client state plus the observable trace of the run. -/
structure CState where
  token : String
  token_expires_at : Int
  now : Int
  calls : List Request
  sleeps : List Int

/-- The immutable environment: credentials and the transport oracle. -/
structure World where
  username : String
  password : String
  transport : Request → Nat → HttpResult

/-- `self.base_url` from `HyponCloud.__init__`. -/
def baseUrl : String := "https://api.hypon.cloud/v2"

/-- `self.token_validity` from `HyponCloud.__init__`. -/
def tokenValidity : Int := 3600

/-- Issue one network call: asks the transport oracle (indexed by how many
calls have been made before) and records the request in the trace. -/
def issueRequest (w : World) (req : Request) (s : CState) : HttpResult × CState :=
  (w.transport req s.calls.length, { s with calls := s.calls ++ [req] })

/-- `await asyncio.sleep d`: records the backoff and advances the clock. -/
def sleepFor (d : Int) (s : CState) : CState :=
  { s with now := s.now + d, sleeps := s.sleeps ++ [d] }

/-- `OverviewData` from `models.py` (floats modelled as `Int`). -/
structure OverviewData where
  capacity : Int := 0
  capacity_company : String := "KW"
  power : Int := 0
  company : String := "W"
  percent : Int := 0
  e_today : Int := 0
  e_total : Int := 0
  fault_dev_num : Int := 0
  normal_dev_num : Int := 0
  offline_dev_num : Int := 0
  wait_dev_num : Int := 0
  total_co2 : Int := 0
  total_tree : Int := 0
deriving DecidableEq, Repr

/-- `PlantData` from `models.py` (floats modelled as `Int`). -/
structure PlantData where
  city : String := ""
  country : String := ""
  e_today : Int := 0
  e_total : Int := 0
  eid : Int := 0
  kwhimp : Int := 0
  micro : Int := 0
  plant_id : String := ""
  plant_name : String := ""
  plant_type : String := ""
  power : Int := 0
  status : String := ""
deriving DecidableEq, Repr

/-- `AdminInfo` from `models.py`. -/
structure AdminInfo where
  parent_name : String := ""
  role : Option (List String) := none
  parent_id : String := ""
  has_lower_level : Bool := false
  last_login_time : String := ""
  created_at : String := ""
  deleted_at : String := ""
  country : String := ""
  address : String := ""
  email : String := ""
  mobile : String := ""
  mobile_prefix_code : String := ""
  login_name : String := ""
  first_name : String := ""
  last_name : String := ""
  company : String := ""
  city : String := ""
  city_mobile_code : String := ""
  username : String := ""
  country_mobile_code : String := ""
  photo : String := ""
  address2 : String := ""
  language : String := ""
  currency : String := ""
  postal_code : String := ""
  timezone : String := ""
  last_login_ip : String := ""
  id : String := ""
  eid : Int := 0
  manufacturer : Int := 0
  switch_warning : Int := 0
  is_internal : Int := 0
  status : Int := 0
  first_login : Bool := false
  token : String := ""
deriving DecidableEq, Repr

/-- Modelled from the spec: `InverterData` is imported by `client.py` from
`models.py` but its definition is missing from the sources provided; per the
spec's data model it is "one record per inverter device within a plant
(serial, model, status, power/energy, firmware version)", decoded like the
other records (unknown fields ignored, missing fields defaulted). -/
structure InverterData where
  serial : String := ""
  model : String := ""
  status : String := ""
  power : Int := 0
  e_today : Int := 0
  firmware_version : String := ""
deriving DecidableEq, Repr

/-- Decode a string field: the value at `k` when present and a string,
otherwise the default (mashumaro-style forward-compatible decoding). -/
def jvalStr (j : JVal) (k : String) (d : String) : String :=
  match pyLookup j k with
  | some (.str v) => v
  | _ => d

/-- Decode an integer field (numbers modelled as `Int`). -/
def jvalInt (j : JVal) (k : String) (d : Int) : Int :=
  match pyLookup j k with
  | some (.num v) => v
  | _ => d

/-- Decode a boolean field. -/
def jvalBool (j : JVal) (k : String) (d : Bool) : Bool :=
  match pyLookup j k with
  | some (.bool v) => v
  | _ => d

/-- Decode an optional list-of-strings field (`role: list[str] | None`). -/
def jvalStrList (j : JVal) (k : String) : Option (List String) :=
  match pyLookup j k with
  | some (.arr items) => some (items.map pyStr)
  | _ => none

/-- `OverviewData.from_dict`: unknown fields ignored, missing fields take
the dataclass defaults. -/
def OverviewData.from_dict (j : JVal) : OverviewData where
  capacity := jvalInt j "capacity" 0
  capacity_company := jvalStr j "capacity_company" "KW"
  power := jvalInt j "power" 0
  company := jvalStr j "company" "W"
  percent := jvalInt j "percent" 0
  e_today := jvalInt j "e_today" 0
  e_total := jvalInt j "e_total" 0
  fault_dev_num := jvalInt j "fault_dev_num" 0
  normal_dev_num := jvalInt j "normal_dev_num" 0
  offline_dev_num := jvalInt j "offline_dev_num" 0
  wait_dev_num := jvalInt j "wait_dev_num" 0
  total_co2 := jvalInt j "total_co2" 0
  total_tree := jvalInt j "total_tree" 0

/-- `PlantData.from_dict`. -/
def PlantData.from_dict (j : JVal) : PlantData where
  city := jvalStr j "city" ""
  country := jvalStr j "country" ""
  e_today := jvalInt j "e_today" 0
  e_total := jvalInt j "e_total" 0
  eid := jvalInt j "eid" 0
  kwhimp := jvalInt j "kwhimp" 0
  micro := jvalInt j "micro" 0
  plant_id := jvalStr j "plant_id" ""
  plant_name := jvalStr j "plant_name" ""
  plant_type := jvalStr j "plant_type" ""
  power := jvalInt j "power" 0
  status := jvalStr j "status" ""

/-- `AdminInfo.from_dict`. -/
def AdminInfo.from_dict (j : JVal) : AdminInfo where
  parent_name := jvalStr j "parent_name" ""
  role := jvalStrList j "role"
  parent_id := jvalStr j "parent_id" ""
  has_lower_level := jvalBool j "has_lower_level" false
  last_login_time := jvalStr j "last_login_time" ""
  created_at := jvalStr j "created_at" ""
  deleted_at := jvalStr j "deleted_at" ""
  country := jvalStr j "country" ""
  address := jvalStr j "address" ""
  email := jvalStr j "email" ""
  mobile := jvalStr j "mobile" ""
  mobile_prefix_code := jvalStr j "mobile_prefix_code" ""
  login_name := jvalStr j "login_name" ""
  first_name := jvalStr j "first_name" ""
  last_name := jvalStr j "last_name" ""
  company := jvalStr j "company" ""
  city := jvalStr j "city" ""
  city_mobile_code := jvalStr j "city_mobile_code" ""
  username := jvalStr j "username" ""
  country_mobile_code := jvalStr j "country_mobile_code" ""
  photo := jvalStr j "photo" ""
  address2 := jvalStr j "address2" ""
  language := jvalStr j "language" ""
  currency := jvalStr j "currency" ""
  postal_code := jvalStr j "postal_code" ""
  timezone := jvalStr j "timezone" ""
  last_login_ip := jvalStr j "last_login_ip" ""
  id := jvalStr j "id" ""
  eid := jvalInt j "eid" 0
  manufacturer := jvalInt j "manufacturer" 0
  switch_warning := jvalInt j "switch_warning" 0
  is_internal := jvalInt j "is_internal" 0
  status := jvalInt j "status" 0
  first_login := jvalBool j "first_login" false
  token := jvalStr j "token" ""

/-- Modelled from the spec (the source definition is missing):
`InverterData.from_dict`, mashumaro-style like the records above. -/
def InverterData.from_dict (j : JVal) : InverterData where
  serial := jvalStr j "serial" ""
  model := jvalStr j "model" ""
  status := jvalStr j "status" ""
  power := jvalInt j "power" 0
  e_today := jvalInt j "e_today" 0
  firmware_version := jvalStr j "firmware_version" ""

/-- `HyponCloud.connect` (client.py lines 62-102).  Fast path when the
cached token is truthy and unexpired; otherwise one `POST /login`.  On a
200, `result["data"]["token"]` is stored together with
`expiry = int(time()) + token_validity`; every failure leaves the token
state untouched.  A `KeyError` from the subscripts is caught and re-raised
as `AuthenticationError`. -/
def connect (w : World) (s : CState) : Except PyExc Unit × CState :=
  if s.token ≠ "" ∧ s.now < s.token_expires_at then (Except.ok (), s)
  else
    let req : Request :=
      { method := "POST", url := baseUrl ++ "/login",
        body := some (.obj [("username", .str w.username),
                            ("password", .str w.password)]) }
    let rs := issueRequest w req s
    match rs.1 with
    | .clientError e =>
        (Except.error (.requestError ("Failed to connect to Hypon Cloud: " ++ e)), rs.2)
    | .resp status body =>
      if status = 401 then
        (Except.error (.authenticationError "Invalid credentials"), rs.2)
      else if status = 429 then
        (Except.error (.rateLimitError
          "Rate limit exceeded. Requests are being sent too fast."), rs.2)
      else if status ≠ 200 then
        (Except.error (.requestError
          ("Connection failed with status " ++ toString status)), rs.2)
      else
        match pySubscript body "data" with
        | Except.error (.keyError k) =>
            (Except.error (.authenticationError
              ("Invalid response from API, missing token: '" ++ k ++ "'")), rs.2)
        | Except.error e => (Except.error e, rs.2)
        | Except.ok d =>
          match pySubscript d "token" with
          | Except.error (.keyError k) =>
              (Except.error (.authenticationError
                ("Invalid response from API, missing token: '" ++ k ++ "'")), rs.2)
          | Except.error e => (Except.error e, rs.2)
          | Except.ok v =>
              (Except.ok (),
               { rs.2 with token := pyStr v,
                           token_expires_at := rs.2.now + tokenValidity })

/-- `HyponCloud.get_overview` (client.py lines 104-152).  `connect` first
(outside the try); then one GET; 429 and other non-200 statuses sleep 10 s
and retry while the budget lasts, exhaustion raises `RateLimitError` /
`RequestError`; a missing `"data"` key (`KeyError`) retries without backoff
and degrades to `OverviewData()` on exhaustion; `aiohttp.ClientError` is
wrapped in `RequestError` immediately. -/
def get_overview (w : World) : Nat → CState → Except PyExc OverviewData × CState
  | retries, s =>
    match connect w s with
    | (Except.error e, s₁) => (Except.error e, s₁)
    | (Except.ok _, s₁) =>
      let req : Request :=
        { method := "GET", url := baseUrl ++ "/plant/overview",
          bearer := some ("Bearer " ++ s₁.token) }
      let rs := issueRequest w req s₁
      match rs.1 with
      | .clientError e =>
          (Except.error (.requestError ("Failed to get plant overview: " ++ e)), rs.2)
      | .resp status body =>
        if status = 429 then
          match retries with
          | Nat.succ r => get_overview w r (sleepFor 10 rs.2)
          | 0 => (Except.error (.rateLimitError
                   "Rate limit exceeded for overview endpoint"), rs.2)
        else if status ≠ 200 then
          match retries with
          | Nat.succ r => get_overview w r (sleepFor 10 rs.2)
          | 0 => (Except.error (.requestError
                   ("Failed to get plant overview: HTTP " ++ toString status)), rs.2)
        else
          match pySubscript body "data" with
          | Except.ok d => (Except.ok (OverviewData.from_dict d), rs.2)
          | Except.error (.keyError _) =>
            match retries with
            | Nat.succ r => get_overview w r rs.2
            | 0 => (Except.ok {}, rs.2)
          | Except.error e => (Except.error e, rs.2)

/-- `HyponCloud.get_list` (client.py lines 154-195).  NOTE, faithful to the
source: it does NOT call `connect` (only an `assert` on the session), and its
single `except Exception` clause catches everything raised inside `try` —
including the `RateLimitError` it raises itself on budget exhaustion, the
`aiohttp.ClientError` of a transport failure, and whatever the recursive
retry calls made inside `try` raise.  The caught exception is retried while
the budget lasts and otherwise wrapped as
`RequestError("Failed to get plant list: " + str(e))`.  On a non-200,
non-429 status with the budget exhausted, control falls through to decoding
the error body. -/
def get_list (w : World) : Nat → CState → Except PyExc (List PlantData) × CState
  | retries, s =>
    let attempt : Except PyExc (List PlantData) × CState :=
      let req : Request :=
        { method := "GET",
          url := baseUrl ++ "/plant/list2?page=1&page_size=10&refresh=true",
          bearer := some ("Bearer " ++ s.token) }
      let rs := issueRequest w req s
      match rs.1 with
      | .clientError e => (Except.error (.clientError e), rs.2)
      | .resp status body =>
        if status = 429 then
          match retries with
          | Nat.succ r => get_list w r (sleepFor 10 rs.2)
          | 0 => (Except.error (.rateLimitError
                   "Rate limit exceeded for plant list endpoint"), rs.2)
        else
          let decode : CState → Except PyExc (List PlantData) × CState :=
            fun s' =>
              match pySubscript body "data" with
              | Except.error e => (Except.error e, s')
              | Except.ok (.arr items) =>
                  (Except.ok (items.map PlantData.from_dict), s')
              | Except.ok _ =>
                  (Except.error (.typeError "data is not a list"), s')
          if status ≠ 200 then
            match retries with
            | Nat.succ r => get_list w r (sleepFor 10 rs.2)
            | 0 => decode rs.2
          else decode rs.2
    match attempt with
    | (Except.ok v, s') => (Except.ok v, s')
    | (Except.error e, s') =>
      match retries with
      | Nat.succ r => get_list w r s'
      | 0 => (Except.error (.requestError
               ("Failed to get plant list: " ++ e.toMessage)), s')

/-- The flattening step of `get_admin_info` (client.py lines 310-313):
`if "info" in data and isinstance(data["info"], dict): data.update(data.pop("info"))`.
`dictInsert`/`dictUpdate` follow Python `dict.update`: existing keys are
overwritten in place, new keys are appended in order. -/
def dictInsert (d : List (String × JVal)) (k : String) (v : JVal) :
    List (String × JVal) :=
  if d.any (fun kv => kv.1 = k) then
    d.map (fun kv => if kv.1 = k then (k, v) else kv)
  else d ++ [(k, v)]

/-- Python `d.update(u)` on association lists. -/
def dictUpdate (d : List (String × JVal)) : List (String × JVal) → List (String × JVal)
  | [] => d
  | (k, v) :: rest => dictUpdate (dictInsert d k v) rest

/-- `data.pop("info"); data.update(info)` when `data["info"]` is a dict;
unchanged otherwise. -/
def flattenInfo : JVal → JVal
  | .obj fields =>
    match lookupField fields "info" with
    | some (.obj infoFields) =>
        .obj (dictUpdate (fields.filter (fun kv => ¬ kv.1 = "info")) infoFields)
    | _ => .obj fields
  | j => j

/-- `HyponCloud.get_admin_info` (client.py lines 270-322): same retry shape
as `get_overview`, with the nested `"info"` object flattened into the
`"data"` dict before decoding, and `AdminInfo()` as the degraded result. -/
def get_admin_info (w : World) : Nat → CState → Except PyExc AdminInfo × CState
  | retries, s =>
    match connect w s with
    | (Except.error e, s₁) => (Except.error e, s₁)
    | (Except.ok _, s₁) =>
      let req : Request :=
        { method := "GET", url := baseUrl ++ "/administrator/admininfo",
          bearer := some ("Bearer " ++ s₁.token) }
      let rs := issueRequest w req s₁
      match rs.1 with
      | .clientError e =>
          (Except.error (.requestError ("Failed to get admin info: " ++ e)), rs.2)
      | .resp status body =>
        if status = 429 then
          match retries with
          | Nat.succ r => get_admin_info w r (sleepFor 10 rs.2)
          | 0 => (Except.error (.rateLimitError
                   "Rate limit exceeded for admin info endpoint"), rs.2)
        else if status ≠ 200 then
          match retries with
          | Nat.succ r => get_admin_info w r (sleepFor 10 rs.2)
          | 0 => (Except.error (.requestError
                   ("Failed to get admin info: HTTP " ++ toString status)), rs.2)
        else
          match pySubscript body "data" with
          | Except.ok d => (Except.ok (AdminInfo.from_dict (flattenInfo d)), rs.2)
          | Except.error (.keyError _) =>
            match retries with
            | Nat.succ r => get_admin_info w r rs.2
            | 0 => (Except.ok {}, rs.2)
          | Except.error e => (Except.error e, rs.2)

/-- The `while page <= total_pages` loop of `HyponCloud.get_inverters`
(client.py lines 223-266), with explicit fuel (`none` = the loop did not
finish within the fuel; Python has no bound).  `retry` is the action taken
when retries remain (`none` when the budget is 0): the source re-enters the
whole operation via `self.get_inverters(plant_id, retries - 1)`, restarting
from page 1 and discarding the accumulator.  `totalPage` is re-read from
every response that carries the key; a non-numeric `totalPage` (a deferred
`TypeError` in Python) is modelled as an immediate `TypeError`. -/
def invLoop (w : World) (plant_id : String)
    (retry : Option (CState → Option (Except PyExc (List InverterData) × CState))) :
    Nat → Int → Int → List InverterData → CState →
    Option (Except PyExc (List InverterData) × CState)
  | 0, _, _, _, _ => none
  | Nat.succ fuel, page, total_pages, all_inverters, s =>
    if total_pages < page then some (Except.ok all_inverters, s)
    else
      let req : Request :=
        { method := "GET",
          url := baseUrl ++ "/plant/" ++ plant_id ++ "/inverter?page=" ++ toString page,
          bearer := some ("Bearer " ++ s.token) }
      let rs := issueRequest w req s
      match rs.1 with
      | .clientError e =>
          some (Except.error (.requestError ("Failed to get inverter list: " ++ e)), rs.2)
      | .resp status body =>
        if status = 429 then
          match retry with
          | some act => act (sleepFor 10 rs.2)
          | none => some (Except.error (.rateLimitError
                     "Rate limit exceeded for inverter list endpoint"), rs.2)
        else if status ≠ 200 then
          match retry with
          | some act => act (sleepFor 10 rs.2)
          | none => some (Except.error (.requestError
                     ("Failed to get inverter list: HTTP " ++ toString status)), rs.2)
        else
          match pySubscript body "data" with
          | Except.error (.keyError _) =>
            match retry with
            | some act => act rs.2
            | none => some (Except.ok [], rs.2)
          | Except.error e => some (Except.error e, rs.2)
          | Except.ok dataVal =>
            let totalRes : Option JVal := pyLookup body "totalPage"
            match totalRes with
            | some (.num t) =>
              match dataVal with
              | .arr items =>
                  invLoop w plant_id retry fuel (page + 1) t
                    (all_inverters ++ items.map InverterData.from_dict) rs.2
              | _ => some (Except.error (.typeError "data is not a list"), rs.2)
            | some _ => some (Except.error (.typeError "totalPage is not an int"), rs.2)
            | none =>
              match dataVal with
              | .arr items =>
                  invLoop w plant_id retry fuel (page + 1) total_pages
                    (all_inverters ++ items.map InverterData.from_dict) rs.2
              | _ => some (Except.error (.typeError "data is not a list"), rs.2)

/-- `HyponCloud.get_inverters` (client.py lines 197-268): `connect` first,
then the pagination loop from `page = 1`, `total_pages = 1` with an empty
accumulator.  A retry restarts the whole operation (fresh fuel, budget
decremented). -/
def get_inverters (w : World) (plant_id : String) (fuel : Nat) :
    Nat → CState → Option (Except PyExc (List InverterData) × CState)
  | 0, s =>
    match connect w s with
    | (Except.error e, s₁) => some (Except.error e, s₁)
    | (Except.ok _, s₁) => invLoop w plant_id none fuel 1 1 [] s₁
  | Nat.succ r, s =>
    match connect w s with
    | (Except.error e, s₁) => some (Except.error e, s₁)
    | (Except.ok _, s₁) =>
        invLoop w plant_id (some (fun s' => get_inverters w plant_id fuel r s'))
          fuel 1 1 [] s₁

/-! ## Named requests (as built by the four operations and `connect`) -/

/-- The `GET /plant/overview` request with the bearer header. -/
def ovReq (tok : String) : Request :=
  { method := "GET", url := baseUrl ++ "/plant/overview",
    bearer := some ("Bearer " ++ tok) }

/-- The `GET /administrator/admininfo` request. -/
def adReq (tok : String) : Request :=
  { method := "GET", url := baseUrl ++ "/administrator/admininfo",
    bearer := some ("Bearer " ++ tok) }

/-- The `GET /plant/list2?...` request. -/
def listReq (tok : String) : Request :=
  { method := "GET", url := baseUrl ++ "/plant/list2?page=1&page_size=10&refresh=true",
    bearer := some ("Bearer " ++ tok) }

/-- The `GET /plant/{plant_id}/inverter?page={page}` request. -/
def invReq (plant_id tok : String) (page : Int) : Request :=
  { method := "GET",
    url := baseUrl ++ "/plant/" ++ plant_id ++ "/inverter?page=" ++ toString page,
    bearer := some ("Bearer " ++ tok) }

/-- The `POST /login` request with the credential body. -/
def loginReq (w : World) : Request :=
  { method := "POST", url := baseUrl ++ "/login",
    body := some (.obj [("username", .str w.username),
                        ("password", .str w.password)]) }

/-! ## Behaviour of `connect` -/

/-- Cache hit: a truthy, unexpired token short-circuits `connect`. -/
lemma connect_cached (w : World) (s : CState)
    (h1 : s.token ≠ "") (h2 : s.now < s.token_expires_at) :
    connect w s = (Except.ok (), s) := by
  rw [connect, if_pos ⟨h1, h2⟩]

/-! ## Runs against a transport that always answers 429 -/

/-- `get_overview` against an always-429 transport: one request per attempt,
a 10-second sleep between consecutive attempts, `RateLimitError` at the end. -/
lemma overview_always429 (w : World) (body : JVal)
    (hw : ∀ req i, w.transport req i = HttpResult.resp 429 body) :
    ∀ (N : Nat) (s : CState), s.token ≠ "" → s.now + 10 * N < s.token_expires_at →
    get_overview w N s =
      (Except.error (.rateLimitError "Rate limit exceeded for overview endpoint"),
       { s with now := s.now + 10 * N,
                calls := s.calls ++ List.replicate (N + 1) (ovReq s.token),
                sleeps := s.sleeps ++ List.replicate N 10 }) := by
  intro N
  induction N with
  | zero =>
    intro s h1 h2
    rw [get_overview]
    rw [connect_cached w s h1 (by omega)]
    simp [issueRequest, hw, ovReq]
  | succ n ih =>
    intro s h1 h2
    rw [get_overview]
    rw [connect_cached w s h1 (by push_cast at h2 ⊢; omega)]
    simp only [issueRequest, hw]
    rw [ih]
    · simp [sleepFor, ovReq, List.replicate_succ, CState.mk.injEq, List.append_assoc]
      ring
    · exact h1
    · simp [sleepFor]
      push_cast at h2 ⊢
      omega

/-- `get_admin_info` against an always-429 transport: same shape as
`get_overview`. -/
lemma admin_always429 (w : World) (body : JVal)
    (hw : ∀ req i, w.transport req i = HttpResult.resp 429 body) :
    ∀ (N : Nat) (s : CState), s.token ≠ "" → s.now + 10 * N < s.token_expires_at →
    get_admin_info w N s =
      (Except.error (.rateLimitError "Rate limit exceeded for admin info endpoint"),
       { s with now := s.now + 10 * N,
                calls := s.calls ++ List.replicate (N + 1) (adReq s.token),
                sleeps := s.sleeps ++ List.replicate N 10 }) := by
  intro N
  induction N with
  | zero =>
    intro s h1 h2
    rw [get_admin_info]
    rw [connect_cached w s h1 (by omega)]
    simp [issueRequest, hw, adReq]
  | succ n ih =>
    intro s h1 h2
    rw [get_admin_info]
    rw [connect_cached w s h1 (by push_cast at h2 ⊢; omega)]
    simp only [issueRequest, hw]
    rw [ih]
    · simp [sleepFor, adReq, List.replicate_succ, CState.mk.injEq, List.append_assoc]
      ring
    · exact h1
    · simp [sleepFor]
      push_cast at h2 ⊢
      omega

/-- `get_inverters` against an always-429 transport (any fuel `f + 1`):
one page-1 request per attempt, a 10-second sleep between attempts,
`RateLimitError` at the end. -/
lemma inverters_always429 (w : World) (plant_id : String) (body : JVal)
    (hw : ∀ req i, w.transport req i = HttpResult.resp 429 body) :
    ∀ (N : Nat) (f : Nat) (s : CState),
      s.token ≠ "" → s.now + 10 * N < s.token_expires_at →
    get_inverters w plant_id (f + 1) N s =
      some (Except.error (.rateLimitError "Rate limit exceeded for inverter list endpoint"),
        { s with now := s.now + 10 * N,
                 calls := s.calls ++ List.replicate (N + 1) (invReq plant_id s.token 1),
                 sleeps := s.sleeps ++ List.replicate N 10 }) := by
  intro N
  induction N with
  | zero =>
    intro f s h1 h2
    rw [get_inverters]
    rw [connect_cached w s h1 (by omega)]
    simp [invLoop, issueRequest, hw, invReq]
  | succ n ih =>
    intro f s h1 h2
    rw [get_inverters]
    rw [connect_cached w s h1 (by push_cast at h2 ⊢; omega)]
    simp only [invLoop, issueRequest, hw]
    rw [ih f]
    · simp [sleepFor, invReq, List.replicate_succ, CState.mk.injEq, List.append_assoc]
      ring
    · exact h1
    · simp [sleepFor]
      push_cast at h2 ⊢
      omega

/-- `get_list` against an always-429 transport.  Because its
`except Exception` clause also catches the exceptions of the recursive
retry call made inside `try`, each budget level retries twice: the run
performs `2 ^ (N + 1) - 1` attempts, sleeps `2 ^ N - 1` times, and ends in
`RequestError` wrapping the rate-limit message — not `RateLimitError`. -/
lemma list_always429 (w : World) (body : JVal)
    (hw : ∀ req i, w.transport req i = HttpResult.resp 429 body) :
    ∀ (N : Nat) (s : CState),
    get_list w N s =
      (Except.error (.requestError
         "Failed to get plant list: Rate limit exceeded for plant list endpoint"),
       { s with now := s.now + 10 * ((2 ^ N - 1 : Nat) : Int),
                calls := s.calls ++ List.replicate (2 ^ (N + 1) - 1) (listReq s.token),
                sleeps := s.sleeps ++ List.replicate (2 ^ N - 1) (10 : Int) }) := by
  intro N
  induction N with
  | zero =>
    intro s
    rw [get_list]
    simp [issueRequest, hw, listReq, PyExc.toMessage]
  | succ n ih =>
    intro s
    have hone : 1 ≤ (2 : Nat) ^ n := Nat.one_le_two_pow
    have hone1 : 1 ≤ (2 : Nat) ^ (n + 1) := Nat.one_le_two_pow
    have hp1 : (2 : Nat) ^ (n + 1) = 2 * 2 ^ n := by ring
    have hp2 : (2 : Nat) ^ (n + 2) = 2 * 2 ^ (n + 1) := by ring
    have h1 : (2 : Nat) ^ (n + 1) - 1 = 1 + (2 ^ n - 1) + (2 ^ n - 1) := by omega
    have h2 : (2 : Nat) ^ (n + 2) - 1 = 1 + (2 ^ (n + 1) - 1) + (2 ^ (n + 1) - 1) := by
      omega
    rw [get_list]
    simp only [issueRequest, hw, if_true]
    rw [ih]
    simp only [sleepFor]
    rw [ih]
    simp only [listReq, Prod.mk.injEq, CState.mk.injEq, List.append_assoc, h1, h2,
      List.replicate_add, List.replicate_one, List.singleton_append]
    and_intros
    all_goals try trivial
    all_goals (push_cast; ring)

/-! ## Runs against a transport that always answers a non-200, non-429 status -/

/-- `get_overview` against a transport always answering a non-success,
non-429 status: one request per attempt, 10-second backoffs, final
`RequestError` carrying the status code. -/
lemma overview_alwaysStatus (w : World) (status : Nat) (body : JVal)
    (h429 : status ≠ 429) (h200 : status ≠ 200)
    (hw : ∀ req i, w.transport req i = HttpResult.resp status body) :
    ∀ (N : Nat) (s : CState), s.token ≠ "" → s.now + 10 * N < s.token_expires_at →
    get_overview w N s =
      (Except.error (.requestError
         ("Failed to get plant overview: HTTP " ++ toString status)),
       { s with now := s.now + 10 * N,
                calls := s.calls ++ List.replicate (N + 1) (ovReq s.token),
                sleeps := s.sleeps ++ List.replicate N 10 }) := by
  intro N
  induction N with
  | zero =>
    intro s h1 h2
    rw [get_overview]
    rw [connect_cached w s h1 (by omega)]
    simp only [issueRequest, hw]
    rw [if_neg h429, if_pos h200]
    simp [ovReq]
  | succ n ih =>
    intro s h1 h2
    rw [get_overview]
    rw [connect_cached w s h1 (by push_cast at h2 ⊢; omega)]
    simp only [issueRequest, hw]
    rw [if_neg h429, if_pos h200]
    rw [ih]
    · simp [sleepFor, ovReq, List.replicate_succ, CState.mk.injEq, List.append_assoc]
      ring
    · exact h1
    · simp [sleepFor]
      push_cast at h2 ⊢
      omega

/-- `get_admin_info` against an always non-200, non-429 status. -/
lemma admin_alwaysStatus (w : World) (status : Nat) (body : JVal)
    (h429 : status ≠ 429) (h200 : status ≠ 200)
    (hw : ∀ req i, w.transport req i = HttpResult.resp status body) :
    ∀ (N : Nat) (s : CState), s.token ≠ "" → s.now + 10 * N < s.token_expires_at →
    get_admin_info w N s =
      (Except.error (.requestError
         ("Failed to get admin info: HTTP " ++ toString status)),
       { s with now := s.now + 10 * N,
                calls := s.calls ++ List.replicate (N + 1) (adReq s.token),
                sleeps := s.sleeps ++ List.replicate N 10 }) := by
  intro N
  induction N with
  | zero =>
    intro s h1 h2
    rw [get_admin_info]
    rw [connect_cached w s h1 (by omega)]
    simp only [issueRequest, hw]
    rw [if_neg h429, if_pos h200]
    simp [adReq]
  | succ n ih =>
    intro s h1 h2
    rw [get_admin_info]
    rw [connect_cached w s h1 (by push_cast at h2 ⊢; omega)]
    simp only [issueRequest, hw]
    rw [if_neg h429, if_pos h200]
    rw [ih]
    · simp [sleepFor, adReq, List.replicate_succ, CState.mk.injEq, List.append_assoc]
      ring
    · exact h1
    · simp [sleepFor]
      push_cast at h2 ⊢
      omega

/-- `get_inverters` against an always non-200, non-429 status. -/
lemma inverters_alwaysStatus (w : World) (plant_id : String) (status : Nat) (body : JVal)
    (h429 : status ≠ 429) (h200 : status ≠ 200)
    (hw : ∀ req i, w.transport req i = HttpResult.resp status body) :
    ∀ (N : Nat) (f : Nat) (s : CState),
      s.token ≠ "" → s.now + 10 * N < s.token_expires_at →
    get_inverters w plant_id (f + 1) N s =
      some (Except.error (.requestError
              ("Failed to get inverter list: HTTP " ++ toString status)),
        { s with now := s.now + 10 * N,
                 calls := s.calls ++ List.replicate (N + 1) (invReq plant_id s.token 1),
                 sleeps := s.sleeps ++ List.replicate N 10 }) := by
  intro N
  induction N with
  | zero =>
    intro f s h1 h2
    rw [get_inverters]
    rw [connect_cached w s h1 (by omega)]
    simp only [invLoop, issueRequest, hw]
    rw [if_neg h429, if_pos h200]
    simp [invReq]
  | succ n ih =>
    intro f s h1 h2
    rw [get_inverters]
    rw [connect_cached w s h1 (by push_cast at h2 ⊢; omega)]
    simp only [invLoop, issueRequest, hw]
    rw [if_neg h429, if_pos h200]
    rw [ih f]
    · simp [sleepFor, invReq, List.replicate_succ, CState.mk.injEq, List.append_assoc]
      ring
    · exact h1
    · simp [sleepFor]
      push_cast at h2 ⊢
      omega

/-- `get_list` against an always non-200, non-429 status whose body carries a
`"data"` list: the budget is burnt with 10-second backoffs and on exhaustion
the operation SILENTLY DECODES the error body and returns it as a success. -/
lemma list_alwaysStatus (w : World) (status : Nat) (body : JVal) (items : List JVal)
    (h429 : status ≠ 429) (h200 : status ≠ 200)
    (hw : ∀ req i, w.transport req i = HttpResult.resp status body)
    (hdata : pySubscript body "data" = Except.ok (JVal.arr items)) :
    ∀ (N : Nat) (s : CState),
    get_list w N s =
      (Except.ok (items.map PlantData.from_dict),
       { s with now := s.now + 10 * N,
                calls := s.calls ++ List.replicate (N + 1) (listReq s.token),
                sleeps := s.sleeps ++ List.replicate N 10 }) := by
  intro N
  induction N with
  | zero =>
    intro s
    rw [get_list]
    simp only [issueRequest, hw]
    rw [if_neg h429]
    simp only [if_pos h200]
    simp [hdata, listReq]
  | succ n ih =>
    intro s
    rw [get_list]
    simp only [issueRequest, hw]
    rw [if_neg h429]
    simp only [if_pos h200]
    rw [ih]
    simp [sleepFor, listReq, List.replicate_succ, CState.mk.injEq, List.append_assoc]
    ring

/-! ## Runs against a 200 transport whose body has no `"data"` key -/

/-- `get_overview` against an always-200 transport whose body lacks
`"data"`: the `KeyError` branch retries with no backoff and degrades to
`OverviewData()` on exhaustion. -/
lemma overview_missingData (w : World) (body : JVal)
    (hw : ∀ req i, w.transport req i = HttpResult.resp 200 body)
    (hdata : pySubscript body "data" = Except.error (PyExc.keyError "data")) :
    ∀ (N : Nat) (s : CState), s.token ≠ "" → s.now < s.token_expires_at →
    get_overview w N s =
      (Except.ok {},
       { s with calls := s.calls ++ List.replicate (N + 1) (ovReq s.token) }) := by
  intro N
  induction N with
  | zero =>
    intro s h1 h2
    rw [get_overview]
    rw [connect_cached w s h1 h2]
    simp [issueRequest, hw, hdata, ovReq]
  | succ n ih =>
    intro s h1 h2
    rw [get_overview]
    rw [connect_cached w s h1 h2]
    simp only [issueRequest, hw, hdata]
    norm_num
    rw [ih]
    · simp [ovReq, List.replicate_succ, CState.mk.injEq, List.append_assoc]
    · exact h1
    · exact h2

/-- `get_admin_info` against an always-200 transport whose body lacks
`"data"`: degrades to `AdminInfo()` on exhaustion, no backoff. -/
lemma admin_missingData (w : World) (body : JVal)
    (hw : ∀ req i, w.transport req i = HttpResult.resp 200 body)
    (hdata : pySubscript body "data" = Except.error (PyExc.keyError "data")) :
    ∀ (N : Nat) (s : CState), s.token ≠ "" → s.now < s.token_expires_at →
    get_admin_info w N s =
      (Except.ok {},
       { s with calls := s.calls ++ List.replicate (N + 1) (adReq s.token) }) := by
  intro N
  induction N with
  | zero =>
    intro s h1 h2
    rw [get_admin_info]
    rw [connect_cached w s h1 h2]
    simp [issueRequest, hw, hdata, adReq]
  | succ n ih =>
    intro s h1 h2
    rw [get_admin_info]
    rw [connect_cached w s h1 h2]
    simp only [issueRequest, hw, hdata]
    norm_num
    rw [ih]
    · simp [adReq, List.replicate_succ, CState.mk.injEq, List.append_assoc]
    · exact h1
    · exact h2

/-- `get_inverters` against an always-200 transport whose body lacks
`"data"`: degrades to the empty sequence on exhaustion, discarding
everything, with no backoff. -/
lemma inverters_missingData (w : World) (plant_id : String) (body : JVal)
    (hw : ∀ req i, w.transport req i = HttpResult.resp 200 body)
    (hdata : pySubscript body "data" = Except.error (PyExc.keyError "data")) :
    ∀ (N : Nat) (f : Nat) (s : CState), s.token ≠ "" → s.now < s.token_expires_at →
    get_inverters w plant_id (f + 1) N s =
      some (Except.ok [],
        { s with calls := s.calls ++ List.replicate (N + 1) (invReq plant_id s.token 1) }) := by
  intro N
  induction N with
  | zero =>
    intro f s h1 h2
    rw [get_inverters]
    rw [connect_cached w s h1 h2]
    simp [invLoop, issueRequest, hw, hdata, invReq]
  | succ n ih =>
    intro f s h1 h2
    rw [get_inverters]
    rw [connect_cached w s h1 h2]
    simp only [invLoop, issueRequest, hw, hdata]
    norm_num
    rw [ih f]
    · simp [invReq, List.replicate_succ, CState.mk.injEq, List.append_assoc]
    · exact h1
    · exact h2

/-- `get_list` against an always-200 transport whose body lacks `"data"`:
the `KeyError` is caught by `except Exception`, retried with no backoff and
wrapped as `RequestError` on exhaustion. -/
lemma list_missingData (w : World) (body : JVal)
    (hw : ∀ req i, w.transport req i = HttpResult.resp 200 body)
    (hdata : pySubscript body "data" = Except.error (PyExc.keyError "data")) :
    ∀ (N : Nat) (s : CState),
    get_list w N s =
      (Except.error (.requestError "Failed to get plant list: 'data'"),
       { s with calls := s.calls ++ List.replicate (N + 1) (listReq s.token) }) := by
  intro N
  induction N with
  | zero =>
    intro s
    rw [get_list]
    simp [issueRequest, hw, hdata, listReq, PyExc.toMessage]
  | succ n ih =>
    intro s
    rw [get_list]
    simp only [issueRequest, hw, hdata]
    norm_num
    rw [ih]
    simp [listReq, List.replicate_succ, CState.mk.injEq, List.append_assoc]

/-! ## Runs against a transport that always raises `aiohttp.ClientError` -/

/-- `get_overview` on a transport failure: fails immediately with
`RequestError` wrapping the cause, for every retry budget. -/
lemma overview_clientError (w : World) (e : String)
    (hw : ∀ req i, w.transport req i = HttpResult.clientError e) :
    ∀ (N : Nat) (s : CState), s.token ≠ "" → s.now < s.token_expires_at →
    get_overview w N s =
      (Except.error (.requestError ("Failed to get plant overview: " ++ e)),
       { s with calls := s.calls ++ [ovReq s.token] }) := by
  intro N s h1 h2
  rw [get_overview]
  rw [connect_cached w s h1 h2]
  simp [issueRequest, hw, ovReq]

/-- `get_admin_info` on a transport failure: immediate `RequestError`. -/
lemma admin_clientError (w : World) (e : String)
    (hw : ∀ req i, w.transport req i = HttpResult.clientError e) :
    ∀ (N : Nat) (s : CState), s.token ≠ "" → s.now < s.token_expires_at →
    get_admin_info w N s =
      (Except.error (.requestError ("Failed to get admin info: " ++ e)),
       { s with calls := s.calls ++ [adReq s.token] }) := by
  intro N s h1 h2
  rw [get_admin_info]
  rw [connect_cached w s h1 h2]
  simp [issueRequest, hw, adReq]

/-- `get_inverters` on a transport failure: immediate `RequestError`. -/
lemma inverters_clientError (w : World) (plant_id : String) (e : String)
    (hw : ∀ req i, w.transport req i = HttpResult.clientError e) :
    ∀ (N : Nat) (f : Nat) (s : CState), s.token ≠ "" → s.now < s.token_expires_at →
    get_inverters w plant_id (f + 1) N s =
      some (Except.error (.requestError ("Failed to get inverter list: " ++ e)),
        { s with calls := s.calls ++ [invReq plant_id s.token 1] }) := by
  intro N f s h1 h2
  cases N with
  | zero =>
    rw [get_inverters]
    rw [connect_cached w s h1 h2]
    simp [invLoop, issueRequest, hw, invReq]
  | succ n =>
    rw [get_inverters]
    rw [connect_cached w s h1 h2]
    simp [invLoop, issueRequest, hw, invReq]

/-- `get_list` on a transport failure: the raw `aiohttp.ClientError` is
caught by `except Exception` and RETRIED (no backoff); `N + 1` attempts are
made before the wrap into `RequestError`. -/
lemma list_clientError (w : World) (e : String)
    (hw : ∀ req i, w.transport req i = HttpResult.clientError e) :
    ∀ (N : Nat) (s : CState),
    get_list w N s =
      (Except.error (.requestError ("Failed to get plant list: " ++ e)),
       { s with calls := s.calls ++ List.replicate (N + 1) (listReq s.token) }) := by
  intro N
  induction N with
  | zero =>
    intro s
    rw [get_list]
    simp [issueRequest, hw, listReq, PyExc.toMessage]
  | succ n ih =>
    intro s
    rw [get_list]
    simp only [issueRequest, hw]
    rw [ih]
    simp [listReq, List.replicate_succ, CState.mk.injEq, List.append_assoc]

/-! ## Behaviour of `connect` on a cache miss -/

lemma connect_not_cached (s : CState)
    (hinv : s.token = "" ∨ s.token_expires_at ≤ s.now) :
    ¬ (s.token ≠ "" ∧ s.now < s.token_expires_at) := by
  rintro ⟨h1, h2⟩
  rcases hinv with h | h
  · exact h1 h
  · omega

lemma connect_login_call (w : World) (s : CState)
    (hinv : s.token = "" ∨ s.token_expires_at ≤ s.now) :
    (connect w s).2.calls = s.calls ++ [loginReq w] := by
  rw [connect, if_neg (connect_not_cached s hinv)]
  simp only [issueRequest]
  repeat' split
  all_goals simp [loginReq]

lemma connect_error_token (w : World) (s : CState) (e : PyExc)
    (herr : (connect w s).1 = Except.error e) :
    (connect w s).2.token = s.token ∧
    (connect w s).2.token_expires_at = s.token_expires_at := by
  rw [connect] at herr ⊢
  split at herr
  · simp at herr
  · simp only [issueRequest] at herr ⊢
    repeat' split
    all_goals simp_all

lemma connect_401 (w : World) (s : CState) (body : JVal)
    (hinv : s.token = "" ∨ s.token_expires_at ≤ s.now)
    (hw : ∀ req i, w.transport req i = HttpResult.resp 401 body) :
    connect w s =
      (Except.error (.authenticationError "Invalid credentials"),
       { s with calls := s.calls ++ [loginReq w] }) := by
  rw [connect, if_neg (connect_not_cached s hinv)]
  simp [issueRequest, hw, loginReq]

lemma connect_clientError (w : World) (s : CState) (e : String)
    (hinv : s.token = "" ∨ s.token_expires_at ≤ s.now)
    (hw : ∀ req i, w.transport req i = HttpResult.clientError e) :
    connect w s =
      (Except.error (.requestError ("Failed to connect to Hypon Cloud: " ++ e)),
       { s with calls := s.calls ++ [loginReq w] }) := by
  rw [connect, if_neg (connect_not_cached s hinv)]
  simp [issueRequest, hw, loginReq]

lemma connect_success (w : World) (s : CState) (body d : JVal) (t : String)
    (hinv : s.token = "" ∨ s.token_expires_at ≤ s.now)
    (hw : ∀ req i, w.transport req i = HttpResult.resp 200 body)
    (hb : pySubscript body "data" = Except.ok d)
    (ht : pySubscript d "token" = Except.ok (JVal.str t)) :
    connect w s =
      (Except.ok (),
       { s with token := t, token_expires_at := s.now + tokenValidity,
                calls := s.calls ++ [loginReq w] }) := by
  rw [connect, if_neg (connect_not_cached s hinv)]
  simp [issueRequest, hw, hb, ht, loginReq, pyStr]

/-! ## Concrete mock transports and states for witnesses and scenarios -/

/-- A client state holding a fresh, long-lived token `"T"`. -/
def tokState : CState :=
  { token := "T", token_expires_at := 1000000, now := 0, calls := [], sleeps := [] }

/-- A freshly constructed client: empty token, expiry 0. -/
def freshState : CState :=
  { token := "", token_expires_at := 0, now := 0, calls := [], sleeps := [] }

/-- Mock transport that always answers HTTP 429. -/
def w429c : World :=
  { username := "u", password := "p", transport := (fun _ _ => .resp 429 (.obj [])) }

/-- Mock transport that always raises `aiohttp.ClientError("boom")`. -/
def wCEc : World :=
  { username := "u", password := "p", transport := (fun _ _ => .clientError "boom") }

/-- Mock transport that always answers HTTP 401 with an empty body. -/
def w401c : World :=
  { username := "u", password := "p", transport := (fun _ _ => .resp 401 (.obj [])) }

/-- Mock transport whose every answer is a successful login payload. -/
def wLoginc : World :=
  { username := "u", password := "p",
    transport := (fun _ _ =>
      .resp 200 (.obj [("data", .obj [("token", .str "T1")])])) }

/-- One inverter record of the pagination mock: `{"serial": "SN<p><i>"}`. -/
def invItem (p i : Nat) : JVal :=
  .obj [("serial", .str ("SN" ++ toString p ++ toString i))]

/-- The page-`p` inverter request of plant `"P1"` with token `"T"`. -/
def pageReq (p : Int) : Request := invReq "P1" "T" p

/-- The six records of the `totalPage = 3`, 2-records-per-page mock, in
page-then-within-page order. -/
def inv6 : List InverterData :=
  [{ serial := "SN11" }, { serial := "SN12" }, { serial := "SN21" },
   { serial := "SN22" }, { serial := "SN31" }, { serial := "SN32" }]

/-- Pagination mock: every page `p ∈ {1,2,3}` answers 200 with two records
and `totalPage = 3`; anything else would be a 500. -/
def w7 : World :=
  { username := "u", password := "p",
    transport := (fun req _ =>
      if req.url = (pageReq 1).url then
        .resp 200 (.obj [("data", .arr [invItem 1 1, invItem 1 2]), ("totalPage", .num 3)])
      else if req.url = (pageReq 2).url then
        .resp 200 (.obj [("data", .arr [invItem 2 1, invItem 2 2]), ("totalPage", .num 3)])
      else if req.url = (pageReq 3).url then
        .resp 200 (.obj [("data", .arr [invItem 3 1, invItem 3 2]), ("totalPage", .num 3)])
      else .resp 500 (.obj [])) }

/-- Same as `w7` except the second network call overall (the first fetch of
page 2) is rate-limited, forcing one mid-walk retry. -/
def w7b : World :=
  { username := "u", password := "p",
    transport := (fun req i =>
      if i = 1 then .resp 429 (.obj []) else w7.transport req i) }

/-- Admin-info mock: `data.info.email = "a@b.com"`, no top-level email. -/
def w9 : World :=
  { username := "u", password := "p",
    transport := (fun _ _ =>
      .resp 200 (.obj [("data",
        .obj [("info", .obj [("email", .str "a@b.com")])])])) }

/-- Pagination mock where page 1 reports `totalPage = 3` but page 2 lowers
it to 2: the walk must stop after page 2. -/
def wShort : World :=
  { username := "u", password := "p",
    transport := (fun req _ =>
      if req.url = (pageReq 1).url then
        .resp 200 (.obj [("data", .arr [invItem 1 1]), ("totalPage", .num 3)])
      else if req.url = (pageReq 2).url then
        .resp 200 (.obj [("data", .arr [invItem 2 1]), ("totalPage", .num 2)])
      else .resp 200 (.obj [("data", .arr [invItem 9 9]), ("totalPage", .num 9)])) }

/-- Pagination mock where page 1 reports `totalPage = 2` but page 2 raises
it to 3: the walk must go on to page 3. -/
def wLong : World :=
  { username := "u", password := "p",
    transport := (fun req _ =>
      if req.url = (pageReq 1).url then
        .resp 200 (.obj [("data", .arr [invItem 1 1]), ("totalPage", .num 2)])
      else if req.url = (pageReq 2).url then
        .resp 200 (.obj [("data", .arr [invItem 2 1]), ("totalPage", .num 3)])
      else if req.url = (pageReq 3).url then
        .resp 200 (.obj [("data", .arr [invItem 3 1]), ("totalPage", .num 3)])
      else .resp 500 (.obj [])) }

/-- Inverter mock whose responses never carry `"totalPage"`. -/
def wNoTotal : World :=
  { username := "u", password := "p",
    transport := (fun _ _ => .resp 200 (.obj [("data", .arr [invItem 1 1])])) }

/-! ## Single-page pagination (no `totalPage` in any response) -/

/-- One loop pass when the 200 body has `"data"` but no `"totalPage"`:
the total stays at its initial value 1, so the walk stops after page 1. -/
lemma invLoop_one_page (w : World) (plant_id : String)
    (retry : Option (CState → Option (Except PyExc (List InverterData) × CState)))
    (body : JVal) (items : List JVal) (f : Nat)
    (hw : ∀ req i, w.transport req i = HttpResult.resp 200 body)
    (hnone : pyLookup body "totalPage" = none)
    (hdata : pySubscript body "data" = Except.ok (JVal.arr items)) :
    ∀ (s : CState),
    invLoop w plant_id retry (f + 2) 1 1 [] s =
      some (Except.ok (items.map InverterData.from_dict),
        { s with calls := s.calls ++ [invReq plant_id s.token 1] }) := by
  intro s
  rw [show f + 2 = (f + 1) + 1 by ring]
  simp only [invLoop, issueRequest, hw, hdata, hnone]
  norm_num [invReq]

/-- `get_inverters` when no response carries `"totalPage"`: exactly one
page is fetched, whatever the retry budget. -/
lemma inverters_one_page (w : World) (plant_id : String)
    (body : JVal) (items : List JVal) (N f : Nat)
    (hw : ∀ req i, w.transport req i = HttpResult.resp 200 body)
    (hnone : pyLookup body "totalPage" = none)
    (hdata : pySubscript body "data" = Except.ok (JVal.arr items)) :
    ∀ (s : CState), s.token ≠ "" → s.now < s.token_expires_at →
    get_inverters w plant_id (f + 2) N s =
      some (Except.ok (items.map InverterData.from_dict),
        { s with calls := s.calls ++ [invReq plant_id s.token 1] }) := by
  intro s h1 h2
  cases N with
  | zero =>
    rw [get_inverters, connect_cached w s h1 h2]
    exact invLoop_one_page w plant_id none body items f hw hnone hdata s
  | succ n =>
    rw [get_inverters, connect_cached w s h1 h2]
    exact invLoop_one_page w plant_id _ body items f hw hnone hdata s

/-! ## Claims -/

/-- C1, counterexample: the claim fails for `get_list`.  With an always-429
transport and retry budget `N = 1`, `get_list` performs 3 request attempts
(not `N + 1 = 2`) and fails with `RequestError` (not `RateLimitError`):
its `except Exception` clause catches both its own `RateLimitError` and the
failure of the retry launched inside `try`, retrying each of them. -/
theorem claim1_counterexample :
    (get_list w429c 1 tokState).2.calls.length = 3 ∧
    (get_list w429c 1 tokState).1 =
      Except.error (PyExc.requestError
        "Failed to get plant list: Rate limit exceeded for plant list endpoint") :=
  ⟨rfl, rfl⟩

/-- C1, amended: with a transport answering 429 on every attempt and a valid
token, `get_overview`, `get_inverters` and `get_admin_info` perform exactly
`N + 1` request attempts with a fixed 10-second backoff between attempts and
fail with `RateLimitError`; `get_list` instead performs `2 ^ (N + 1) - 1`
attempts and fails with `RequestError` wrapping the rate-limit message,
because its blanket `except Exception` also catches and retries the
exceptions of the recursive retry call made inside `try`. -/
theorem claim1_amended (w : World) (body : JVal)
    (hw : ∀ req i, w.transport req i = HttpResult.resp 429 body)
    (N f : Nat) (plant_id : String) (s : CState)
    (h1 : s.token ≠ "") (h2 : s.now + 10 * N < s.token_expires_at) :
    ((get_overview w N s).1 =
        Except.error (.rateLimitError "Rate limit exceeded for overview endpoint") ∧
      (get_overview w N s).2.calls.length = s.calls.length + (N + 1) ∧
      (get_overview w N s).2.sleeps = s.sleeps ++ List.replicate N 10) ∧
    ((get_admin_info w N s).1 =
        Except.error (.rateLimitError "Rate limit exceeded for admin info endpoint") ∧
      (get_admin_info w N s).2.calls.length = s.calls.length + (N + 1) ∧
      (get_admin_info w N s).2.sleeps = s.sleeps ++ List.replicate N 10) ∧
    (∃ s', get_inverters w plant_id (f + 1) N s =
        some (Except.error
          (.rateLimitError "Rate limit exceeded for inverter list endpoint"), s') ∧
      s'.calls.length = s.calls.length + (N + 1) ∧
      s'.sleeps = s.sleeps ++ List.replicate N 10) ∧
    ((get_list w N s).1 =
        Except.error (.requestError
          "Failed to get plant list: Rate limit exceeded for plant list endpoint") ∧
      (get_list w N s).2.calls.length = s.calls.length + (2 ^ (N + 1) - 1)) := by
  refine ⟨?_, ?_, ?_, ?_⟩
  · rw [overview_always429 w body hw N s h1 h2]; simp
  · rw [admin_always429 w body hw N s h1 h2]; simp
  · exact ⟨_, inverters_always429 w plant_id body hw N f s h1 h2, by simp, by simp⟩
  · rw [list_always429 w body hw N s]; simp

/-- C1 witness: the amended claim at the always-429 mock, budget 1. -/
theorem claim1_amended_witness :
    ((∀ req i, w429c.transport req i = HttpResult.resp 429 (JVal.obj [])) ∧
      tokState.token ≠ "" ∧ tokState.now + 10 * 1 < tokState.token_expires_at) ∧
    ((get_overview w429c 1 tokState).1 =
        Except.error (.rateLimitError "Rate limit exceeded for overview endpoint") ∧
      (get_overview w429c 1 tokState).2.calls.length = 2 ∧
      (get_list w429c 1 tokState).2.calls.length = 3) := by
  have h := claim1_amended w429c (JVal.obj []) (fun _ _ => rfl) 1 0 "P1" tokState
    (by decide) (by decide)
  exact ⟨⟨fun _ _ => rfl, by decide, by decide⟩, h.1.1,
    by simpa using h.1.2.1, by simpa using h.2.2.2.2⟩

/-- C2: `connect` makes no network call when the cached token is non-empty
and unexpired; when the token is absent or expired it makes exactly one
login call; and after a successful login yielding a non-empty token, the
next `connect` is a no-op, for one network call in total. -/
theorem claim2_token_cache (w : World) (s : CState) (body d : JVal) (t : String) :
    (s.token ≠ "" → s.now < s.token_expires_at →
      connect w s = (Except.ok (), s)) ∧
    ((s.token = "" ∨ s.token_expires_at ≤ s.now) →
      (connect w s).2.calls = s.calls ++ [loginReq w]) ∧
    ((s.token = "" ∨ s.token_expires_at ≤ s.now) →
      (∀ req i, w.transport req i = HttpResult.resp 200 body) →
      pySubscript body "data" = Except.ok d →
      pySubscript d "token" = Except.ok (JVal.str t) →
      t ≠ "" →
      (connect w s).2.calls = s.calls ++ [loginReq w] ∧
      connect w (connect w s).2 = (Except.ok (), (connect w s).2)) := by
  refine ⟨fun h1 h2 => connect_cached w s h1 h2,
    fun hinv => connect_login_call w s hinv, ?_⟩
  intro hinv hw hb ht htne
  rw [connect_success w s body d t hinv hw hb ht]
  refine ⟨rfl, ?_⟩
  exact connect_cached w _ htne
    (by show s.now < s.now + tokenValidity; simp only [tokenValidity]; omega)

/-- C2 witness: a fresh manager against a successful login mock. -/
theorem claim2_token_cache_witness :
    (freshState.token = "" ∨ freshState.token_expires_at ≤ freshState.now) ∧
    ((connect wLoginc freshState).2.calls = freshState.calls ++ [loginReq wLoginc] ∧
     connect wLoginc (connect wLoginc freshState).2 =
       (Except.ok (), (connect wLoginc freshState).2)) := by
  have h := (claim2_token_cache wLoginc freshState
      (JVal.obj [("data", JVal.obj [("token", JVal.str "T1")])])
      (JVal.obj [("token", JVal.str "T1")]) "T1").2.2
  exact ⟨Or.inl rfl, h (Or.inl rfl) (fun _ _ => rfl) rfl rfl (by decide)⟩

/-- C3, evidence of the code bug: on a fresh manager (empty token),
`get_list` issues its GET without any login call — the transport answering
401 — and surfaces `RequestError`, never `AuthenticationError`, contradicting
its own docstring; `get_overview` from the same state does log in first and
propagates `connect`'s `AuthenticationError` unchanged. -/
theorem claim3_get_list_skips_connect :
    (get_list w401c 0 freshState).2.calls.map (fun r => r.method) = ["GET"] ∧
    (get_list w401c 0 freshState).1 =
      Except.error (PyExc.requestError "Failed to get plant list: 'data'") ∧
    (get_overview w401c 0 freshState).2.calls.map (fun r => r.method) = ["POST"] ∧
    (get_overview w401c 0 freshState).1 =
      Except.error (PyExc.authenticationError "Invalid credentials") :=
  ⟨by decide, rfl, by decide, rfl⟩

/-- C4: on an always non-success, non-429 status with a valid token,
`get_overview`, `get_admin_info` and `get_inverters` burn the budget with a
10-second backoff before each retry and fail with `RequestError` carrying
the status code; `get_list`, on exhaustion, silently proceeds to decode the
error response body and returns it as a success. -/
theorem claim4_nonsuccess_status (w : World) (status : Nat) (body : JVal)
    (items : List JVal)
    (h429 : status ≠ 429) (h200 : status ≠ 200)
    (hw : ∀ req i, w.transport req i = HttpResult.resp status body)
    (hdata : pySubscript body "data" = Except.ok (JVal.arr items))
    (N f : Nat) (plant_id : String) (s : CState)
    (h1 : s.token ≠ "") (h2 : s.now + 10 * N < s.token_expires_at) :
    ((get_overview w N s).1 =
        Except.error (.requestError
          ("Failed to get plant overview: HTTP " ++ toString status)) ∧
      (get_overview w N s).2.calls.length = s.calls.length + (N + 1) ∧
      (get_overview w N s).2.sleeps = s.sleeps ++ List.replicate N 10) ∧
    ((get_admin_info w N s).1 =
        Except.error (.requestError
          ("Failed to get admin info: HTTP " ++ toString status)) ∧
      (get_admin_info w N s).2.calls.length = s.calls.length + (N + 1) ∧
      (get_admin_info w N s).2.sleeps = s.sleeps ++ List.replicate N 10) ∧
    (∃ s', get_inverters w plant_id (f + 1) N s =
        some (Except.error (.requestError
          ("Failed to get inverter list: HTTP " ++ toString status)), s') ∧
      s'.calls.length = s.calls.length + (N + 1) ∧
      s'.sleeps = s.sleeps ++ List.replicate N 10) ∧
    ((get_list w N s).1 = Except.ok (items.map PlantData.from_dict) ∧
      (get_list w N s).2.calls.length = s.calls.length + (N + 1) ∧
      (get_list w N s).2.sleeps = s.sleeps ++ List.replicate N 10) := by
  refine ⟨?_, ?_, ?_, ?_⟩
  · rw [overview_alwaysStatus w status body h429 h200 hw N s h1 h2]; simp
  · rw [admin_alwaysStatus w status body h429 h200 hw N s h1 h2]; simp
  · exact ⟨_, inverters_alwaysStatus w plant_id status body h429 h200 hw N f s h1 h2,
      by simp, by simp⟩
  · rw [list_alwaysStatus w status body items h429 h200 hw hdata N s]; simp

/-- C4 witness: status 500 with a well-formed `"data"` list in the body. -/
theorem claim4_nonsuccess_status_witness :
    ((500 : Nat) ≠ 429 ∧ (500 : Nat) ≠ 200 ∧
      (∀ req i, (World.mk "u" "p" (fun _ _ =>
        HttpResult.resp 500 (JVal.obj [("data", JVal.arr [])]))).transport req i =
        HttpResult.resp 500 (JVal.obj [("data", JVal.arr [])])) ∧
      pySubscript (JVal.obj [("data", JVal.arr [])]) "data" =
        Except.ok (JVal.arr []) ∧
      tokState.token ≠ "" ∧ tokState.now + 10 * 1 < tokState.token_expires_at) ∧
    ((get_overview (World.mk "u" "p" (fun _ _ =>
        HttpResult.resp 500 (JVal.obj [("data", JVal.arr [])]))) 1 tokState).1 =
      Except.error (.requestError "Failed to get plant overview: HTTP 500") ∧
     (get_list (World.mk "u" "p" (fun _ _ =>
        HttpResult.resp 500 (JVal.obj [("data", JVal.arr [])]))) 1 tokState).1 =
      Except.ok []) := by
  have h := claim4_nonsuccess_status
    (World.mk "u" "p" (fun _ _ => HttpResult.resp 500 (JVal.obj [("data", JVal.arr [])])))
    500 (JVal.obj [("data", JVal.arr [])]) [] (by decide) (by decide)
    (fun _ _ => rfl) rfl 1 0 "P1" tokState (by decide) (by decide)
  exact ⟨⟨by decide, by decide, fun _ _ => rfl, rfl, by decide, by decide⟩,
    h.1.1, by simpa using h.2.2.2.1⟩

/-- C5: on 200 responses whose body lacks the expected `"data"` key, every
operation retries with no backoff; on exhaustion `get_overview` and
`get_admin_info` return the zero-valued default record, `get_inverters`
returns the empty sequence, and `get_list` fails with `RequestError`. -/
theorem claim5_malformed_success (w : World) (body : JVal)
    (hw : ∀ req i, w.transport req i = HttpResult.resp 200 body)
    (hdata : pySubscript body "data" = Except.error (PyExc.keyError "data"))
    (N f : Nat) (plant_id : String) (s : CState)
    (h1 : s.token ≠ "") (h2 : s.now < s.token_expires_at) :
    ((get_overview w N s).1 = Except.ok ({} : OverviewData) ∧
      (get_overview w N s).2.calls.length = s.calls.length + (N + 1) ∧
      (get_overview w N s).2.sleeps = s.sleeps) ∧
    ((get_admin_info w N s).1 = Except.ok ({} : AdminInfo) ∧
      (get_admin_info w N s).2.calls.length = s.calls.length + (N + 1) ∧
      (get_admin_info w N s).2.sleeps = s.sleeps) ∧
    (∃ s', get_inverters w plant_id (f + 1) N s = some (Except.ok [], s') ∧
      s'.calls.length = s.calls.length + (N + 1) ∧
      s'.sleeps = s.sleeps) ∧
    ((get_list w N s).1 =
        Except.error (.requestError "Failed to get plant list: 'data'") ∧
      (get_list w N s).2.calls.length = s.calls.length + (N + 1) ∧
      (get_list w N s).2.sleeps = s.sleeps) := by
  refine ⟨?_, ?_, ?_, ?_⟩
  · rw [overview_missingData w body hw hdata N s h1 h2]; simp
  · rw [admin_missingData w body hw hdata N s h1 h2]; simp
  · exact ⟨_, inverters_missingData w plant_id body hw hdata N f s h1 h2,
      by simp, by simp⟩
  · rw [list_missingData w body hw hdata N s]; simp

/-- C5 witness: 200 responses with an empty-object body. -/
theorem claim5_malformed_success_witness :
    ((∀ req i, (World.mk "u" "p" (fun _ _ => HttpResult.resp 200 (JVal.obj []))).transport
        req i = HttpResult.resp 200 (JVal.obj [])) ∧
      pySubscript (JVal.obj []) "data" = Except.error (PyExc.keyError "data") ∧
      tokState.token ≠ "" ∧ tokState.now < tokState.token_expires_at) ∧
    ((get_overview (World.mk "u" "p" (fun _ _ => HttpResult.resp 200 (JVal.obj [])))
        3 tokState).1 = Except.ok ({} : OverviewData) ∧
     (get_list (World.mk "u" "p" (fun _ _ => HttpResult.resp 200 (JVal.obj [])))
        3 tokState).1 =
      Except.error (.requestError "Failed to get plant list: 'data'")) := by
  have h := claim5_malformed_success
    (World.mk "u" "p" (fun _ _ => HttpResult.resp 200 (JVal.obj []))) (JVal.obj [])
    (fun _ _ => rfl) rfl 3 0 "P1" tokState (by decide) (by decide)
  exact ⟨⟨fun _ _ => rfl, rfl, by decide, by decide⟩, h.1.1, h.2.2.2.1⟩

/-- C6, counterexample: the claim fails for `get_list`.  With a transport
that always raises a connection error and retry budget 1, `get_list`
performs 2 request attempts — its `except Exception` clause catches the
`aiohttp.ClientError` and retries — instead of failing immediately without
consuming retries. -/
theorem claim6_counterexample :
    (get_list wCEc 1 tokState).2.calls.length = 2 ∧
    (get_list wCEc 1 tokState).2.sleeps = [] :=
  ⟨rfl, rfl⟩

/-- C6, amended: a transport-level failure makes `get_overview`,
`get_admin_info` and `get_inverters` fail immediately with `RequestError`
wrapping the cause, with a single attempt and no backoff, for every budget;
`get_list` instead catches the transport failure and retries it with no
backoff, performing `N + 1` attempts before failing with `RequestError`
wrapping the cause. -/
theorem claim6_amended (w : World) (e : String)
    (hw : ∀ req i, w.transport req i = HttpResult.clientError e)
    (N f : Nat) (plant_id : String) (s : CState)
    (h1 : s.token ≠ "") (h2 : s.now < s.token_expires_at) :
    get_overview w N s =
      (Except.error (.requestError ("Failed to get plant overview: " ++ e)),
       { s with calls := s.calls ++ [ovReq s.token] }) ∧
    get_admin_info w N s =
      (Except.error (.requestError ("Failed to get admin info: " ++ e)),
       { s with calls := s.calls ++ [adReq s.token] }) ∧
    get_inverters w plant_id (f + 1) N s =
      some (Except.error (.requestError ("Failed to get inverter list: " ++ e)),
        { s with calls := s.calls ++ [invReq plant_id s.token 1] }) ∧
    ((get_list w N s).1 =
        Except.error (.requestError ("Failed to get plant list: " ++ e)) ∧
      (get_list w N s).2.calls.length = s.calls.length + (N + 1) ∧
      (get_list w N s).2.sleeps = s.sleeps) := by
  refine ⟨overview_clientError w e hw N s h1 h2,
    admin_clientError w e hw N s h1 h2,
    inverters_clientError w plant_id e hw N f s h1 h2, ?_⟩
  rw [list_clientError w e hw N s]; simp

/-- C6 witness: the amended claim at the always-failing mock, budget 1. -/
theorem claim6_amended_witness :
    ((∀ req i, wCEc.transport req i = HttpResult.clientError "boom") ∧
      tokState.token ≠ "" ∧ tokState.now < tokState.token_expires_at) ∧
    ((get_overview wCEc 1 tokState).2.calls.length = 1 ∧
     (get_list wCEc 1 tokState).1 =
       Except.error (.requestError "Failed to get plant list: boom")) := by
  have h := claim6_amended wCEc "boom" (fun _ _ => rfl) 1 0 "P1" tokState
    (by decide) (by decide)
  refine ⟨⟨fun _ _ => rfl, by decide, by decide⟩, ?_, h.2.2.2.1⟩
  rw [h.1]
  rfl

/-- C7: with the `totalPage = 3`, 2-records-per-page mock, `get_inverters`
walks pages 1, 2, 3 in order and returns exactly 6 records in
page-then-within-page order; with the same mock rate-limiting the first
fetch of page 2, the retry restarts the whole walk from page 1 (page 1 is
requested twice, the partial page already fetched is discarded) and still
returns the 6 records in order after one 10-second backoff. -/
theorem claim7_pagination :
    get_inverters w7 "P1" 10 3 tokState =
      some (Except.ok inv6,
        { tokState with calls := [pageReq 1, pageReq 2, pageReq 3] }) ∧
    get_inverters w7b "P1" 10 1 tokState =
      some (Except.ok inv6,
        { tokState with now := 10,
                        calls := [pageReq 1, pageReq 2, pageReq 1, pageReq 2, pageReq 3],
                        sleeps := [10] }) :=
  ⟨rfl, rfl⟩

/-- C8: a failed login never mutates token state — whenever `connect`
returns an error the stored token and expiry are exactly what they were; on
a 401 the error is `AuthenticationError`, on a transport failure it is
`RequestError` wrapping the cause, and in both cases the state records only
the one login call. -/
theorem claim8_failed_login (w : World) (s : CState) (e : PyExc) (body : JVal)
    (msg : String) :
    ((connect w s).1 = Except.error e →
      (connect w s).2.token = s.token ∧
      (connect w s).2.token_expires_at = s.token_expires_at) ∧
    ((s.token = "" ∨ s.token_expires_at ≤ s.now) →
      (∀ req i, w.transport req i = HttpResult.resp 401 body) →
      connect w s =
        (Except.error (.authenticationError "Invalid credentials"),
         { s with calls := s.calls ++ [loginReq w] })) ∧
    ((s.token = "" ∨ s.token_expires_at ≤ s.now) →
      (∀ req i, w.transport req i = HttpResult.clientError msg) →
      connect w s =
        (Except.error (.requestError ("Failed to connect to Hypon Cloud: " ++ msg)),
         { s with calls := s.calls ++ [loginReq w] })) :=
  ⟨connect_error_token w s e,
   fun hinv hw => connect_401 w s body hinv hw,
   fun hinv hw => connect_clientError w s msg hinv hw⟩

/-- C8 witness: fresh manager, 401 mock and connection-error mock. -/
theorem claim8_failed_login_witness :
    (freshState.token = "" ∨ freshState.token_expires_at ≤ freshState.now) ∧
    (connect w401c freshState =
      (Except.error (.authenticationError "Invalid credentials"),
       { freshState with calls := freshState.calls ++ [loginReq w401c] }) ∧
     connect wCEc freshState =
      (Except.error (.requestError "Failed to connect to Hypon Cloud: boom"),
       { freshState with calls := freshState.calls ++ [loginReq wCEc] }) ∧
     (connect wCEc freshState).2.token = freshState.token) := by
  have h1 := (claim8_failed_login w401c freshState
      (PyExc.authenticationError "Invalid credentials") (JVal.obj []) "boom").2.1
    (Or.inl rfl) (fun _ _ => rfl)
  have h2 := (claim8_failed_login wCEc freshState
      (PyExc.requestError "Failed to connect to Hypon Cloud: boom") (JVal.obj [])
      "boom").2.2 (Or.inl rfl) (fun _ _ => rfl)
  exact ⟨Or.inl rfl, h1, h2, by rw [h2]⟩

/-- C9: `get_admin_info` merges the nested `"info"` sub-object into the
top-level data before decoding: with `data.info.email = "a@b.com"` and no
top-level `"email"` key, the decoded record's email field is `"a@b.com"`
(every other field keeps its default). -/
theorem claim9_admin_flatten :
    (get_admin_info w9 3 tokState).1 = Except.ok { email := "a@b.com" } ∧
    pyLookup (JVal.obj [("info", JVal.obj [("email", JVal.str "a@b.com")])])
      "email" = none :=
  ⟨rfl, rfl⟩

/-- C10: if no response carries `"totalPage"`, the total stays at its
initial value 1 and only page 1 is fetched (whatever the budget and fuel);
and the total is re-read from every page where the key is present: a page-2
response lowering it to 2 stops the walk before page 3, while a page-2
response raising it to 3 extends the walk to page 3. -/
theorem claim10_totalPage (w : World) (plant_id : String) (body : JVal)
    (items : List JVal) (N f : Nat) (s : CState)
    (hw : ∀ req i, w.transport req i = HttpResult.resp 200 body)
    (hnone : pyLookup body "totalPage" = none)
    (hdata : pySubscript body "data" = Except.ok (JVal.arr items))
    (h1 : s.token ≠ "") (h2 : s.now < s.token_expires_at) :
    (get_inverters w plant_id (f + 2) N s =
      some (Except.ok (items.map InverterData.from_dict),
        { s with calls := s.calls ++ [invReq plant_id s.token 1] })) ∧
    get_inverters wShort "P1" 10 3 tokState =
      some (Except.ok [{ serial := "SN11" }, { serial := "SN21" }],
        { tokState with calls := [pageReq 1, pageReq 2] }) ∧
    get_inverters wLong "P1" 10 3 tokState =
      some (Except.ok [{ serial := "SN11" }, { serial := "SN21" },
                       { serial := "SN31" }],
        { tokState with calls := [pageReq 1, pageReq 2, pageReq 3] }) :=
  ⟨inverters_one_page w plant_id body items N f hw hnone hdata s h1 h2, rfl, rfl⟩

/-- C10 witness: the no-`totalPage` mock with budget 3. -/
theorem claim10_totalPage_witness :
    ((∀ req i, wNoTotal.transport req i =
        HttpResult.resp 200 (JVal.obj [("data", JVal.arr [invItem 1 1])])) ∧
      pyLookup (JVal.obj [("data", JVal.arr [invItem 1 1])]) "totalPage" = none ∧
      tokState.token ≠ "" ∧ tokState.now < tokState.token_expires_at) ∧
    get_inverters wNoTotal "P1" 2 3 tokState =
      some (Except.ok [{ serial := "SN11" }],
        { tokState with calls := [pageReq 1] }) := by
  have h := (claim10_totalPage wNoTotal "P1" (JVal.obj [("data", JVal.arr [invItem 1 1])])
    [invItem 1 1] 3 0 tokState (fun _ _ => rfl) rfl rfl (by decide) (by decide)).1
  refine ⟨⟨fun _ _ => rfl, rfl, by decide, by decide⟩, ?_⟩
  rw [h]
  rfl
